import Mathlib

/-!
Verification of the view-window controller of `ui-virtualization`
(`src/virtual-repeat.ts`).

The development shallowly embeds the `VirtualRepeat` class: its mutable
fields become a record `VR`, each method becomes a state-passing function,
and the browser event loop (scroll events, the microtask queue used by
`TaskQueue.queueMicroTask`, and `requestAnimationFrame` callbacks) becomes
an explicit scheduler over queues stored in the record.

The collection/template strategies (`getViewRange`, `isNearTop`,
`isNearBottom`, `updateBuffers`, `remeasure`, the strategy locator) and
`rebindAndMoveView` live outside `src/`; those are modelled from the
spec, and each such definition says so in its doc comment.  Everything
else is translated directly from `src/virtual-repeat.ts`.
-/

namespace UIVirt

/-- Immutable snapshot of the scroller, as produced by
`getScrollerInfo()` (`virtual-repeat.ts` lines 569-580): `scrollTop`,
`scrollHeight` and the viewport `height`.  JS numbers are integral in
every scenario of interest, so they are embedded as `Int`. -/
structure ScrollerData where
  scrollTop : Int
  scrollHeight : Int
  height : Int
deriving Repr, DecidableEq

/-- The `IScrollNextScrollContext` object built in `_getMore`
(lines 810-814): `{ topIndex, isAtBottom, isAtTop }`. -/
structure ScrollContext where
  topIndex : Int
  isAtBottom : Bool
  isAtTop : Bool
deriving Repr, DecidableEq

/-- The part of the binding scope the claims observe: the
`overrideContext.$scrollContext` slot written by `_getMore`
(line 816). -/
structure Scope where
  scrollContext : Option ScrollContext
deriving Repr, DecidableEq

/-- Shape of the bound `items` value, as far as the strategy locator and
the truthiness tests in the source distinguish it: a JS-falsy value, an
iterable collection carrying its length, or a truthy non-iterable value. -/
inductive Source where
  | nullish
  | arr (len : Nat)
  | notIterable
deriving Repr, DecidableEq

/-- Strategy kinds the locator can return (array-like or null-source). -/
inductive StrategyKind where
  | array
  | nullSource
deriving Repr, DecidableEq

/-- Resolved value of the `infinite-scroll-next` attribute on the first
view's element (`_getMore`, lines 792-797): either a string naming a
function on the binding context, or a binding expression (identified
abstractly by a number). -/
inductive AttrVal where
  | strVal (name : String)
  | exprVal (id : Nat)
deriving Repr, DecidableEq

/-- Behaviour of a user-supplied load-more function on the binding
context: it returns a promise (deferred completion) or a plain value. -/
inductive FuncBehavior where
  | promise
  | immediate
deriving Repr, DecidableEq

/-- A queued microtask: `_onScroll` queues exactly one kind, the closure
of lines 604-608 capturing the `(current, previous)` snapshot pair. -/
inductive MicroTask where
  | scrollTask (cur prev : ScrollerData)
deriving Repr, DecidableEq

/-- A queued `requestAnimationFrame` callback: `executeGetMore`
(scheduled at line 847) with its captured arguments, or
`revertScrollCheckGuard` (scheduled at line 858). -/
inductive RafTask where
  | getMoreTask (topIndex : Int) (nearTop nearBottom : Bool)
  | revertGuardTask
deriving Repr, DecidableEq

/-- State of a `VirtualRepeat` instance together with the scheduler
queues and observation logs of its environment.  Field names follow the
source.  `views` holds the `$index` bound to each rendered view, in
`viewSlot.children` order.  `calls` records each invocation of the
load-more function with its positional arguments
`(topIndex, isNearBottom, isNearTop)`; `exprEvals` records each
evaluation of a load-more binding expression with the scope it was
evaluated against; `errors` records thrown errors of rAF callbacks;
`warnings` counts `console.warn` calls. -/
structure VR where
  _first : Int
  _viewsLength : Int
  _topBufferHeight : Int
  _bottomBufferHeight : Int
  itemHeight : Int
  elementsInView : Int
  edgeDistance : Int
  items : Source
  views : List Int
  _isAttached : Bool
  _ticking : Bool
  _isAtTop : Bool
  _calledGetMore : Bool
  _skipNextScrollHandle : Bool
  _handlingMutations : Bool
  _ignoreMutation : Bool
  _currScrollerInfo : ScrollerData
  strategy : Option StrategyKind
  collectionObserver : Bool
  scope : Option Scope
  attrValue : Option AttrVal
  bindingCtx : List (String × FuncBehavior)
  measuredHeight : Int
  microtasks : List MicroTask
  rafs : List RafTask
  calls : List (Int × Bool × Bool)
  exprEvals : List Scope
  errors : List String
  warnings : Nat
  promisePending : Bool
deriving Repr, DecidableEq

/-- JS truthiness of the bound `items` value (`if (!items) return;`,
line 627): only a nullish source is falsy. -/
def isFalsy : Source → Bool
  | Source.nullish => true
  | _ => false

/-- Length of the bound collection as the strategies see it. -/
def itemCount (s : VR) : Int :=
  match s.items with
  | Source.arr n => (n : Int)
  | _ => 0

/-- `viewCount()` (line 1014): `viewSlot.children.length`. -/
def viewCount (s : VR) : Nat := s.views.length

/-- `view(index)` (lines 1024-1027): `index < 0 || index >
viewSlot.children.length - 1 ? null : viewSlot.children[index]`.  The
embedded view is its bound `$index`. -/
def view (s : VR) (index : Int) : Option Int :=
  if index < 0 ∨ (s.views.length : Int) - 1 < index then none
  else s.views.get? index.toNat

/-- `_firstView()` (line 873). -/
def _firstView (s : VR) : Option Int := view s 0

/-- `_lastView()` (line 878): `view(viewCount() - 1)`. -/
def _lastView (s : VR) : Option Int := view s ((viewCount s : Int) - 1)

/-- `_firstViewIndex()` (lines 882-885): `-1` when there is no first
view, else its `overrideContext.$index`. -/
def _firstViewIndex (s : VR) : Int :=
  match _firstView s with
  | none => -1
  | some v => v

/-- `_lastViewIndex()` (lines 888-891). -/
def _lastViewIndex (s : VR) : Int :=
  match _lastView s with
  | none => -1
  | some v => v

/-- Contiguous block of indices of length `len` starting at `start`;
used to state the windowing invariant on rendered views. -/
def contigRange (start : Int) (len : Nat) : List Int :=
  (List.range len).map (fun (i : Nat) => start + (i : Int))

/-- Modelled from the spec: `VirtualRepeatStrategyLocator.getStrategy`
(not under `src/`).  Spec section 4.2: a source that exposes no coherent
ordering/count (not iterable) is rejected with a `null` strategy; array
sources get the array strategy. -/
def getStrategy : Source → Option StrategyKind
  | Source.arr _ => some StrategyKind.array
  | Source.nullish => some StrategyKind.nullSource
  | Source.notIterable => none

/-- Modelled from the spec: `strategy.isNearTop(repeat, index)` (not
under `src/`).  Spec section 4.2: `index ≤ edgeThreshold`. -/
def isNearTop (s : VR) (index : Int) : Bool := index ≤ s.edgeDistance

/-- Modelled from the spec: `strategy.isNearBottom(repeat, index)` (not
under `src/`).  Spec section 4.2: `index ≥ itemCount − 1 −
edgeThreshold`. -/
def isNearBottom (s : VR) (index : Int) : Bool :=
  itemCount s - 1 - s.edgeDistance ≤ index

/-- Modelled from the spec: `strategy.getViewRange(repeat,
scrollerInfo)` (not under `src/`).  Spec section 4.2: `start =
floor(scrollTop / itemHeight)` clamped to `[0, itemCount −
minimumViewsToFillViewport]`; `end = start + minimumViewsToFillViewport
− 1` clamped to `itemCount − 1`.  (`Int.fdiv` is `Math.floor` of the
exact quotient; the relative scrolltop of a fixed-height container is
its `scrollTop`.) -/
def getViewRange (s : VR) (info : ScrollerData) : Int × Int :=
  let count := itemCount s
  let start := max 0 (min (Int.fdiv info.scrollTop s.itemHeight) (count - s.elementsInView))
  (start, min (start + s.elementsInView - 1) (count - 1))

/-- Modelled from the spec: `strategy.updateBuffers(repeat,
firstIndex)` (not under `src/`).  Spec section 3 invariant:
`topBufferHeight = firstIndex * itemHeight` and `bottomBufferHeight =
max(0, itemCount − firstIndex − length) * itemHeight`, recomputed on
every window mutation. -/
def updateBuffers (s : VR) (firstIdx : Int) : VR :=
  { s with
    _topBufferHeight := firstIdx * s.itemHeight
    _bottomBufferHeight :=
      max 0 (itemCount s - firstIdx - (s.views.length : Int)) * s.itemHeight }

/-- Modelled from the spec: `strategy.remeasure(repeat)` (not under
`src/`).  Spec section 4.2: forces a full re-derivation of the visible
range and a full rebuild of rendered views at that range, with buffers
recomputed. -/
def remeasure (s : VR) (info : ScrollerData) : VR :=
  let p := getViewRange s info
  let len := (p.2 - p.1 + 1).toNat
  updateBuffers { s with _first := p.1, views := contigRange p.1 len } p.1

/-- One iteration step of `_moveViews(count, 1)` (lines 769-780)
repeated `k` times: take `view(0)`, rebind it to `++lastIndex`
(`rebindAndMoveView` with move-to-bottom, modelled from the spec: the
view leaves the head of the slot, is bound to the new index, and is
appended at the tail). -/
def moveViewsDown : List Int → Int → Nat → List Int
  | vs, _, 0 => vs
  | [], _, _ + 1 => []
  | _ :: rest, lastIndex, k + 1 => moveViewsDown (rest ++ [lastIndex + 1]) (lastIndex + 1) k

/-- One iteration step of `_moveViews(count, -1)` (lines 756-767)
repeated `k` times: take `_lastView()`, rebind it to `--startIndex`
(`rebindAndMoveView` with move-to-top, modelled from the spec), and
prepend it at the head. -/
def moveViewsUp : List Int → Int → Nat → List Int
  | vs, _, 0 => vs
  | [], _, _ + 1 => []
  | vs, startIndex, k + 1 => moveViewsUp ((startIndex - 1) :: vs.dropLast) (startIndex - 1) k

/-- `_moveViews(viewsCount, direction)` (lines 753-781). -/
def _moveViews (s : VR) (viewsCount : Nat) (direction : Int) : VR :=
  if direction = -1 then
    { s with views := moveViewsUp s.views (_firstViewIndex s) viewsCount }
  else
    { s with views := moveViewsDown s.views (_lastViewIndex s) viewsCount }

/-- Synchronous result of `_handleScroll` (lines 618-746): the updated
repeat state, the `should_call_scroll_next` value, whether the
unclassified-transition warning was logged, the `executeGetMore`
callback scheduled on the next frame by `_getMore` (if any), and the
error thrown, `none` on every path since no branch of `_handleScroll`
throws. -/
structure HSResult where
  state : VR
  signal : Int
  warned : Bool
  getMoreSched : Option (Int × Bool × Bool)
  err : Option String
deriving Repr, DecidableEq

/-- Tail of `_handleScroll` (lines 739-745) plus the synchronous part of
`_getMore` (lines 784-848): when `should_call_scroll_next` is non-zero,
`_getMore(newStart, isNearTop(newStart), isNearBottom(newEnd))` runs,
and it schedules `executeGetMore` on the next animation frame exactly
when one of the near-edge flags holds and `_calledGetMore` is not yet
set. -/
def finishHS (s : VR) (ns ne : Int) (signal : Int) (warned : Bool) : HSResult :=
  let nt := isNearTop s ns
  let nb := isNearBottom s ne
  let sched :=
    if signal ≠ 0 ∧ (nt = true ∨ nb = true) ∧ s._calledGetMore = false then
      some (ns, nt, nb)
    else none
  ⟨s, signal, warned, sched, none⟩

/-- `_handleScroll(currentScrollerInfo, prevScrollerInfo)`
(lines 618-746), translated branch for branch.  The previous snapshot
parameter is unused by the source body and kept for signature fidelity. -/
def _handleScroll (s : VR) (cur prev : ScrollerData) : HSResult :=
  if s._isAttached = false then ⟨s, 0, false, none, none⟩
  else if s._skipNextScrollHandle = true then
    ⟨{ s with _skipNextScrollHandle := false }, 0, false, none, none⟩
  else if isFalsy s.items = true then ⟨s, 0, false, none, none⟩
  else
    let os := s._first
    let oe := _lastViewIndex s
    let p := getViewRange s cur
    let ns := p.1
    let ne := p.2
    -- intersection types 3 and 4 (lines 671-692): pinned at bottom/top
    if (ns ≥ os ∧ oe = ne) ∨ (ne = oe ∧ oe ≥ ne) then
      let signal : Int :=
        if ns ≥ os ∧ oe = ne then
          if isNearBottom s ne = true then 1 else 0
        else if isNearTop s ns = true then -1 else 0
      finishHS s ns ne signal false
    -- intersection type 1 (lines 697-702): scrolling down, overlapping
    else if ns > os ∧ oe ≥ ns ∧ ne ≥ oe then
      let s1 := _moveViews s (ns - os).toNat 1
      let s2 := updateBuffers { s1 with _first := ns } ns
      finishHS s2 ns ne 1 false
    -- intersection type 2 (lines 705-710): scrolling up, overlapping
    else if os > ns ∧ os ≤ ne ∧ oe ≥ ne then
      let s1 := _moveViews s (oe - ne).toNat (-1)
      let s2 := updateBuffers { s1 with _first := ns } ns
      finishHS s2 ns ne (-1) false
    -- intersection types 5 and 6 (lines 713-725): disjoint jump
    else if oe < ns ∨ os > ne then
      let s1 := remeasure s cur
      let signal : Int :=
        if oe < ns then
          if isNearBottom s ne = true then 1 else 0
        else if isNearTop s ns = true then -1 else 0
      finishHS s1 ns ne signal false
    -- unclassified (lines 729-732): console.warn and remeasure
    else
      finishHS (remeasure s cur) ns ne 0 true

/-- `_resetCalculation()` (lines 583-595), including the
`_updateBufferElements(true)` call that re-arms `_ticking` and schedules
`revertScrollCheckGuard` on the next frame (lines 853-860). -/
def _resetCalculation (s : VR) : VR :=
  { s with
    _first := 0, _viewsLength := 0, _topBufferHeight := 0, _bottomBufferHeight := 0,
    itemHeight := 0, elementsInView := 0,
    _ignoreMutation := false, _handlingMutations := false,
    _isAtTop := true,
    _ticking := true,
    rafs := s.rafs ++ [RafTask.revertGuardTask] }

/-- `detached()` (lines 424-447): remove listeners, clear the attached
flag, unsubscribe from the collection, reset the window calculation,
and destroy all rendered views.  Pending queued tasks are untouched. -/
def detached (s : VR) : VR :=
  let s1 := { s with _isAttached := false, collectionObserver := false, strategy := s.strategy }
  let s2 := _resetCalculation s1
  { s2 with views := [] }

/-- `_onScroll()` (lines 598-615).  The scroller reading that
`getScrollerInfo()` would take is an input from the environment; it is
captured only when the guard passes, exactly as in the source. -/
def _onScroll (s : VR) (reading : ScrollerData) : VR :=
  let isHandlingMutations := s._handlingMutations
  let s1 :=
    if s._ticking = false ∧ isHandlingMutations = false then
      { s with
        _currScrollerInfo := reading,
        microtasks := s.microtasks ++ [MicroTask.scrollTask reading s._currScrollerInfo],
        _ticking := true }
    else s
  if isHandlingMutations = true then { s1 with _handlingMutations := false } else s1

/-- `handleCollectionMutated(collection, changes)` (lines 526-533).
`strategy.instanceMutated` is strategy code outside `src/`; it is passed
in as `patch`. -/
def handleCollectionMutated (patch : VR → VR) (s : VR) : VR :=
  if s._ignoreMutation = true then s
  else patch { s with _handlingMutations := true }

/-- `_unsubscribeCollection()` (lines 863-869). -/
def _unsubscribeCollection (s : VR) : VR :=
  { s with collectionObserver := false }

/-- Modelled from the spec: `strategy.initCalculation` plus
`strategy.instanceChanged` (not under `src/`).  Spec section 4.2:
measure one representative item; derive the minimum views to fill the
viewport; instantiate the window of views at the current start index;
recompute buffers.  A non-positive measured height signals that sizing
failed and leaves sizing untouched (the source then arms a retry
interval). -/
def initCalcInstanceChanged (s : VR) : VR :=
  let h := s.measuredHeight
  if h ≤ 0 then s
  else
    let eiv := Int.fdiv s._currScrollerInfo.height h + 1
    let len := (min eiv (itemCount s)).toNat
    let s1 := { s with itemHeight := h, elementsInView := eiv,
                       views := contigRange s._first len,
                       _viewsLength := (len : Int) }
    updateBuffers s1 s._first

/-- `itemsChanged()` (lines 468-523): unsubscribe, bail out when
unbound or detached, derive the strategy — throwing
`Value is not iterateable for virtual repeat.` when none exists —
then resubscribe and run the sizing/windowing calculation.  The second
component is the thrown error, if any; mutations made before the throw
(the unsubscription, the null strategy assignment of line 478) persist
in the returned state, as they do in JS. -/
def itemsChanged (s : VR) : VR × Option String :=
  let s1 := _unsubscribeCollection s
  if s1.scope = none ∨ s1._isAttached = false then (s1, none)
  else
    match getStrategy s1.items with
    | none => ({ s1 with strategy := none }, some "Value is not iterateable for virtual repeat.")
    | some strat =>
      let s2 := { s1 with strategy := some strat, collectionObserver := true }
      (initCalcInstanceChanged s2, none)

/-- Injection of `$scrollContext` into the override context
(lines 815-816). -/
def setScrollContext (sc : Scope) (ctx : ScrollContext) : Scope :=
  { sc with scrollContext := some ctx }

/-- Lookup of `bindingContext[getMoreFuncName]` (line 820): `some`
exactly when the named property is a function. -/
def lookupFunc : List (String × FuncBehavior) → String → Option FuncBehavior
  | [], _ => none
  | (k, v) :: rest, name => if k = name then some v else lookupFunc rest name

/-- The `executeGetMore` rAF callback of `_getMore` (lines 788-845):
set `_calledGetMore`; resolve the `infinite-scroll-next` attribute from
the first view (resetting the flag when absent); inject
`$scrollContext = { topIndex, isAtBottom, isAtTop }` into the override
context; then either call the named binding-context function
positionally with `(topIndex, isNearBottom, isNearTop)` — keeping the
flag set until its returned promise resolves, or clearing it at once
for a non-promise result — or clear the flag and evaluate the binding
expression against the scope, or throw when the named value is not a
function.  (The attribute string read back through `getAttribute` is
the same string the instruction carries.) -/
def executeGetMore (s : VR) (topIndex : Int) (nearTopArg nearBottomArg : Bool) : VR :=
  let s0 := { s with _calledGetMore := true }
  match s0.attrValue with
  | none => { s0 with _calledGetMore := false }
  | some av =>
    match s0.scope with
    | none => { s0 with errors := s0.errors ++ ["TypeError: scope is null"] }
    | some sc =>
      let ctx : ScrollContext :=
        { topIndex := topIndex, isAtBottom := nearBottomArg, isAtTop := nearTopArg }
      let sc2 := setScrollContext sc ctx
      let s1 := { s0 with scope := some sc2 }
      match av with
      | AttrVal.strVal name =>
        match lookupFunc s1.bindingCtx name with
        | some FuncBehavior.promise =>
          { s1 with calls := s1.calls ++ [(topIndex, nearBottomArg, nearTopArg)],
                    promisePending := true }
        | some FuncBehavior.immediate =>
          { s1 with calls := s1.calls ++ [(topIndex, nearBottomArg, nearTopArg)],
                    _calledGetMore := false }
        | none =>
          { s1 with errors := s1.errors ++ ["infinite-scroll-next must be a function or evaluate to one"] }
      | AttrVal.exprVal _ =>
        { s1 with _calledGetMore := false, exprEvals := s1.exprEvals ++ [sc2] }

/-- The body of the microtask queued by `_onScroll` (lines 604-608):
run `_handleScroll` with the captured snapshot pair, then clear
`_ticking`; any `executeGetMore` scheduled inside goes onto the rAF
queue, and a logged warning is counted. -/
def runScrollTask (s : VR) (cur prev : ScrollerData) : VR :=
  let r := _handleScroll s cur prev
  let s1 := r.state
  { s1 with
    _ticking := false,
    warnings := s1.warnings + (if r.warned then 1 else 0),
    rafs := s1.rafs ++ (match r.getMoreSched with
      | some g => [RafTask.getMoreTask g.1 g.2.1 g.2.2]
      | none => []) }

/-- Dispatch one queued microtask. -/
def runMicroTask (s : VR) : MicroTask → VR
  | MicroTask.scrollTask cur prev => runScrollTask s cur prev

/-- Drain the microtask queue in order (the `TaskQueue` flushes
fully). -/
def stepMicro (s : VR) : VR :=
  s.microtasks.foldl runMicroTask { s with microtasks := [] }

/-- Dispatch one queued rAF callback. -/
def runRaf (s : VR) : RafTask → VR
  | RafTask.getMoreTask i nt nb => executeGetMore s i nt nb
  | RafTask.revertGuardTask => { s with _ticking := false }

/-- Run an animation frame: all callbacks queued so far, in order. -/
def stepFrame (s : VR) : VR :=
  s.rafs.foldl runRaf { s with rafs := [] }

/-- Environment events driving the single-threaded event loop. -/
inductive Ev where
  | scroll (reading : ScrollerData)
  | micro
  | frame
  | resolveLoad
deriving Repr, DecidableEq

/-- One event-loop step.  `resolveLoad` is the completion of the
deferred load-more result: its `then` callback clears `_calledGetMore`
(lines 828-831). -/
def step (s : VR) : Ev → VR
  | Ev.scroll r => _onScroll s r
  | Ev.micro => stepMicro s
  | Ev.frame => stepFrame s
  | Ev.resolveLoad =>
    if s.promisePending = true then
      { s with promisePending := false, _calledGetMore := false }
    else s

/-- Run a sequence of event-loop steps. -/
def run (s : VR) (evs : List Ev) : VR := evs.foldl step s

end UIVirt

namespace UIVirt

/-! ## Helper lemmas -/

theorem length_contigRange (start : Int) (len : Nat) :
    (contigRange start len).length = len := by
  unfold contigRange
  rw [List.length_map, List.length_range]

theorem get?_contigRange (start : Int) (len m : Nat) (h : m < len) :
    (contigRange start len).get? m = some (start + (m : Int)) := by
  unfold contigRange
  rw [List.get?_map, List.get?_range h]
  rfl

theorem lastViewIndex_contig (s : VR) (f : Int) (n : Nat)
    (hv : s.views = contigRange f n) (hn : 1 ≤ n) :
    _lastViewIndex s = f + (n : Int) - 1 := by
  have hlen : s.views.length = n := by rw [hv]; exact length_contigRange f n
  have hcond : ¬ ((viewCount s : Int) - 1 < 0 ∨ (s.views.length : Int) - 1 < (viewCount s : Int) - 1) := by
    unfold viewCount
    omega
  have htn : ((viewCount s : Int) - 1).toNat = n - 1 := by
    unfold viewCount
    omega
  unfold _lastViewIndex _lastView view
  rw [if_neg hcond, htn, hv, get?_contigRange f n (n - 1) (by omega)]
  have : ((n - 1 : Nat) : Int) = (n : Int) - 1 := by omega
  rw [this]
  ring_nf

theorem firstViewIndex_contig (s : VR) (f : Int) (n : Nat)
    (hv : s.views = contigRange f n) (hn : 1 ≤ n) :
    _firstViewIndex s = f := by
  have hlen : s.views.length = n := by rw [hv]; exact length_contigRange f n
  have hcond : ¬ ((0 : Int) < 0 ∨ (s.views.length : Int) - 1 < 0) := by omega
  unfold _firstViewIndex _firstView view
  rw [if_neg hcond]
  show (match s.views.get? (0 : Int).toNat with | none => -1 | some v => v) = f
  rw [show (0 : Int).toNat = 0 from rfl, hv, get?_contigRange f n 0 (by omega)]
  simp

theorem range_map_shift (L : Int) (k : Nat) :
    (L + 1) :: (List.range k).map (fun (i : Nat) => L + 1 + 1 + (i : Int))
      = (List.range (k + 1)).map (fun (i : Nat) => L + 1 + (i : Int)) := by
  rw [List.range_succ_eq_map, List.map_cons, List.map_map]
  congr 1
  · simp
  · apply List.map_congr_left
    intro a _
    simp only [Function.comp_apply, Nat.succ_eq_add_one]
    push_cast
    ring

theorem moveViewsDown_spec (k : Nat) :
    ∀ (vs : List Int) (L : Int), k ≤ vs.length →
      moveViewsDown vs L k
        = vs.drop k ++ (List.range k).map (fun (i : Nat) => L + 1 + (i : Int)) := by
  induction k with
  | zero => intro vs L _; simp [moveViewsDown]
  | succ k ih =>
    intro vs L h
    match vs with
    | [] => simp at h
    | v :: rest =>
      have hk : k ≤ rest.length := by simpa using h
      show moveViewsDown (rest ++ [L + 1]) (L + 1) k = _
      rw [ih (rest ++ [L + 1]) (L + 1) (by simp; omega)]
      rw [List.drop_append_of_le_length hk, List.drop_succ_cons]
      rw [List.append_assoc, List.singleton_append, range_map_shift]

theorem handleScroll_detached_noop (s : VR) (cur prev : ScrollerData)
    (h : s._isAttached = false) :
    _handleScroll s cur prev = ⟨s, 0, false, none, none⟩ := by
  simp [_handleScroll, h]

theorem onScroll_busy (s : VR) (r : ScrollerData)
    (ht : s._ticking = true) (hm : s._handlingMutations = false) :
    _onScroll s r = s := by
  simp [_onScroll, ht, hm]

theorem foldl_onScroll_busy (l : List ScrollerData) (s : VR)
    (ht : s._ticking = true) (hm : s._handlingMutations = false) :
    l.foldl _onScroll s = s := by
  induction l with
  | nil => rfl
  | cons x xs ih => rw [List.foldl_cons, onScroll_busy s x ht hm]; exact ih

theorem foldl_micro_detached (ts : List MicroTask) :
    ∀ s : VR, s._isAttached = false →
      (ts.foldl runMicroTask s)._first = s._first ∧
      (ts.foldl runMicroTask s).views = s.views ∧
      (ts.foldl runMicroTask s)._topBufferHeight = s._topBufferHeight ∧
      (ts.foldl runMicroTask s)._bottomBufferHeight = s._bottomBufferHeight ∧
      (ts.foldl runMicroTask s).itemHeight = s.itemHeight ∧
      (ts.foldl runMicroTask s)._isAttached = false := by
  induction ts with
  | nil => intro s h; exact ⟨rfl, rfl, rfl, rfl, rfl, h⟩
  | cons t ts ih =>
    intro s h
    match t with
    | MicroTask.scrollTask c p =>
      have hstep : runMicroTask s (MicroTask.scrollTask c p)
          = { s with _ticking := false } := by
        simp [runMicroTask, runScrollTask, handleScroll_detached_noop s c p h]
      rw [List.foldl_cons, hstep]
      exact ih { s with _ticking := false } h

/-! ## Claim theorems -/

/-- C10: for every integer index, `view(i)` returns `null` exactly when
`i < 0` or `i ≥ viewCount()` and never fails out of range, and on an
empty rendered set `_firstViewIndex()` and `_lastViewIndex()` both
return `-1`, so the old-range computation of the scroll handler is
total. -/
theorem view_null_iff_out_of_range (s : VR) (i : Int) :
    (view s i = none ↔ i < 0 ∨ (viewCount s : Int) ≤ i) ∧
    (s.views = [] → _firstViewIndex s = -1 ∧ _lastViewIndex s = -1) := by
  constructor
  · unfold view viewCount
    by_cases h : i < 0 ∨ (s.views.length : Int) - 1 < i
    · rw [if_pos h]
      exact ⟨fun _ => by omega, fun _ => rfl⟩
    · rw [if_neg h]
      push_neg at h
      constructor
      · intro hn
        rw [List.get?_eq_none] at hn
        omega
      · intro hc
        exfalso
        omega
  · intro h
    unfold _firstViewIndex _lastViewIndex _firstView _lastView view viewCount
    rw [h]
    simp

/-- C5: after `detached()` the scroll handler is a no-op — a pending
coalesced scroll callback mutates no window state — and `detached()`
itself has zeroed the window: `firstIndex`, buffer heights, item height
are `0` and the rendered set is empty, both immediately and after the
pending microtasks run. -/
theorem detach_pending_callback_safe (s : VR) (cur prev : ScrollerData) :
    (_handleScroll (detached s) cur prev).state = detached s ∧
    (_handleScroll (detached s) cur prev).signal = 0 ∧
    (_handleScroll (detached s) cur prev).getMoreSched = none ∧
    (detached s)._isAttached = false ∧
    (detached s)._first = 0 ∧
    (detached s)._topBufferHeight = 0 ∧
    (detached s)._bottomBufferHeight = 0 ∧
    (detached s).itemHeight = 0 ∧
    (detached s).views = [] ∧
    (stepMicro (detached s))._first = 0 ∧
    (stepMicro (detached s)).views = [] ∧
    (stepMicro (detached s))._topBufferHeight = 0 ∧
    (stepMicro (detached s))._bottomBufferHeight = 0 ∧
    (stepMicro (detached s)).itemHeight = 0 := by
  have hdet : (detached s)._isAttached = false := rfl
  have hno := handleScroll_detached_noop (detached s) cur prev hdet
  have hdrain := foldl_micro_detached (detached s).microtasks
      { detached s with microtasks := [] } hdet
  refine ⟨by rw [hno], by rw [hno], by rw [hno], hdet, rfl, rfl, rfl, rfl, rfl, ?_, ?_, ?_, ?_, ?_⟩
  · exact hdrain.1
  · exact hdrain.2.1
  · exact hdrain.2.2.1
  · exact hdrain.2.2.2.1
  · exact hdrain.2.2.2.2.1

/-- C7: a scroll notification arriving while `_handlingMutations` is set
queues no scroll-derived microtask and only clears the flag; and
`handleCollectionMutated` (when not suppressed by `_ignoreMutation`)
sets the flag before delegating to the strategy, so mutation handling
runs to completion before the next scroll-derived recomputation. -/
theorem mutation_guard_blocks_scroll (s : VR) (r : ScrollerData) (patch : VR → VR) :
    (s._handlingMutations = true →
      _onScroll s r = { s with _handlingMutations := false }) ∧
    (s._ignoreMutation = false →
      handleCollectionMutated patch s = patch { s with _handlingMutations := true }) := by
  constructor
  · intro h
    simp [_onScroll, h]
  · intro h
    simp [handleCollectionMutated, h]

/-- C4: a burst of scroll events arriving before the scheduled
microtask runs is coalesced into exactly one queued scroll computation,
and that computation carries the latest captured snapshot pair: the
final `_currScrollerInfo` (captured at the burst's first event — later
events of the burst capture nothing because `_ticking` guards the
capture) paired with the snapshot it replaced. -/
theorem scroll_burst_coalesced (s : VR) (r : ScrollerData) (rest : List ScrollerData)
    (ht : s._ticking = false) (hm : s._handlingMutations = false)
    (hq : s.microtasks = []) :
    ((r :: rest).foldl _onScroll s).microtasks
      = [MicroTask.scrollTask ((r :: rest).foldl _onScroll s)._currScrollerInfo
           s._currScrollerInfo] ∧
    ((r :: rest).foldl _onScroll s)._currScrollerInfo = r ∧
    ((r :: rest).foldl _onScroll s)._ticking = true := by
  have h1 : _onScroll s r
      = { s with _currScrollerInfo := r,
                 microtasks := s.microtasks ++ [MicroTask.scrollTask r s._currScrollerInfo],
                 _ticking := true } := by
    simp [_onScroll, ht, hm]
  have h2 : (r :: rest).foldl _onScroll s
      = { s with _currScrollerInfo := r,
                 microtasks := s.microtasks ++ [MicroTask.scrollTask r s._currScrollerInfo],
                 _ticking := true } := by
    rw [List.foldl_cons, h1]
    exact foldl_onScroll_busy rest _ rfl hm
  rw [h2, hq]
  exact ⟨rfl, rfl, rfl⟩

end UIVirt

namespace UIVirt

/-! ## Concrete states used by witnesses and counterexamples -/

/-- A steady attached repeat over 1000 items of height 20 with a
400-pixel viewport (20 items visible), window at the top, a
promise-returning `loadMore` function bound as `infinite-scroll-next`. -/
def sampleBase : VR := {
  _first := 0, _viewsLength := 20, _topBufferHeight := 0, _bottomBufferHeight := 19600,
  itemHeight := 20, elementsInView := 20, edgeDistance := 5,
  items := Source.arr 1000, views := contigRange 0 20,
  _isAttached := true, _ticking := false, _isAtTop := true, _calledGetMore := false,
  _skipNextScrollHandle := false, _handlingMutations := false, _ignoreMutation := false,
  _currScrollerInfo := ⟨0, 20000, 400⟩,
  strategy := some StrategyKind.array, collectionObserver := true,
  scope := some ⟨none⟩, attrValue := some (AttrVal.strVal "loadMore"),
  bindingCtx := [("loadMore", FuncBehavior.promise)],
  measuredHeight := 20,
  microtasks := [], rafs := [], calls := [], exprEvals := [], errors := [],
  warnings := 0, promisePending := false }

/-- 20-item list rendered in full (`oldEnd = 19`) with
`minimumViewsToFillViewport = 15`: scrolling to `scrollTop = 100` gives
the new range `[5, 19]`, whose end coincides with the old end. -/
def overlapPinnedState : VR :=
  { sampleBase with items := Source.arr 20, elementsInView := 15, _bottomBufferHeight := 0 }

/-- Pinned-bottom configuration: 100 items, window `[80, 99]` rendered,
scroller already at the bottom. -/
def pinnedBottomState : VR :=
  { sampleBase with items := Source.arr 100, _first := 80, views := contigRange 80 20,
                    _topBufferHeight := 1600, _bottomBufferHeight := 0 }

/-- A state whose old rendered range `[0, 10]` strictly contains the
new range `[0, 5]` with equal starts: none of the five classified
intersection cases applies. -/
def unclassifiedState : VR :=
  { sampleBase with items := Source.arr 100, elementsInView := 6,
                    views := contigRange 0 11, _bottomBufferHeight := 1780 }

/-- Near-bottom window `[970, 989]` of the 1000-item list, used for the
rapid-scroll load-more trace. -/
def rapidScrollState : VR :=
  { sampleBase with _first := 970, views := contigRange 970 20,
                    _topBufferHeight := 19400, _bottomBufferHeight := 200,
                    _currScrollerInfo := ⟨19400, 20000, 400⟩ }

/-- Attached, bound state whose `items` is a truthy non-iterable. -/
def nonIterableState : VR := { sampleBase with items := Source.notIterable }

/-- Attached state with the mutation-handling flag set. -/
def mutatingState : VR := { sampleBase with _handlingMutations := true }

/-- Attached state with no rendered views. -/
def emptyViewsState : VR := { sampleBase with views := [] }

/-! ## Remaining claim theorems -/

/-- C2: in the pinned-bottom case (`newStart ≥ oldStart` and `oldEnd =
newEnd`) and the pinned-top case (`newEnd = oldEnd`, not pinned-bottom)
the scroll handler moves no views and leaves the whole repeat state —
`firstIndex`, both buffer heights, the rendered set — unchanged; its
only effect is edge signaling: near-bottom exactly when the new end is
within the edge threshold of the last item (pinned-bottom case), and
near-top exactly when the new start is within the edge threshold of
index 0 (pinned-top case). -/
theorem pinned_cases_only_signal (s : VR) (cur prev : ScrollerData) (ns ne : Int)
    (hA : s._isAttached = true) (hS : s._skipNextScrollHandle = false)
    (hF : isFalsy s.items = false)
    (hr : getViewRange s cur = (ns, ne))
    (hpin : (ns ≥ s._first ∧ _lastViewIndex s = ne)
            ∨ (ne = _lastViewIndex s ∧ _lastViewIndex s ≥ ne)) :
    (_handleScroll s cur prev).state = s ∧
    (_handleScroll s cur prev).warned = false ∧
    (_handleScroll s cur prev).err = none ∧
    ((ns ≥ s._first ∧ _lastViewIndex s = ne) →
      ((_handleScroll s cur prev).signal = 1 ↔ isNearBottom s ne = true) ∧
      (_handleScroll s cur prev).signal ≠ -1) ∧
    (¬ (ns ≥ s._first ∧ _lastViewIndex s = ne) →
      ((_handleScroll s cur prev).signal = -1 ↔ isNearTop s ns = true) ∧
      (_handleScroll s cur prev).signal ≠ 1) := by
  have hred : _handleScroll s cur prev
      = finishHS s ns ne
          (if ns ≥ s._first ∧ _lastViewIndex s = ne then
            if isNearBottom s ne = true then 1 else 0
          else if isNearTop s ns = true then -1 else 0) false := by
    simp only [_handleScroll]
    rw [if_neg (show ¬ (s._isAttached = false) from by simp [hA])]
    rw [if_neg (show ¬ (s._skipNextScrollHandle = true) from by simp [hS])]
    rw [if_neg (show ¬ (isFalsy s.items = true) from by simp [hF])]
    rw [hr]
    dsimp only
    rw [if_pos hpin]
  rw [hred]
  refine ⟨rfl, rfl, rfl, ?_, ?_⟩
  · intro hC
    rw [if_pos hC]
    by_cases hb : isNearBottom s ne = true
    · rw [if_pos hb]
      exact ⟨⟨fun _ => hb, fun _ => rfl⟩, show (1 : Int) ≠ -1 by decide⟩
    · rw [if_neg hb]
      exact ⟨⟨fun h => absurd h (show ¬ (0 : Int) = 1 by decide), fun h => absurd h hb⟩,
        show (0 : Int) ≠ -1 by decide⟩
  · intro hC
    rw [if_neg hC]
    by_cases ht : isNearTop s ns = true
    · rw [if_pos ht]
      exact ⟨⟨fun _ => ht, fun _ => rfl⟩, show (-1 : Int) ≠ 1 by decide⟩
    · rw [if_neg ht]
      exact ⟨⟨fun h => absurd h (show ¬ (0 : Int) = -1 by decide), fun h => absurd h ht⟩,
        show (0 : Int) ≠ 1 by decide⟩

/-- C2 witness: at the pinned-bottom configuration the handler leaves
the state untouched and signals near-bottom. -/
theorem pinned_cases_only_signal_witness :
    getViewRange pinnedBottomState ⟨1600, 2000, 400⟩ = (80, 99) ∧
    (_handleScroll pinnedBottomState ⟨1600, 2000, 400⟩ ⟨0, 2000, 400⟩).state
      = pinnedBottomState ∧
    (_handleScroll pinnedBottomState ⟨1600, 2000, 400⟩ ⟨0, 2000, 400⟩).signal = 1 :=
  ⟨by decide,
   (pinned_cases_only_signal pinnedBottomState ⟨1600, 2000, 400⟩ ⟨0, 2000, 400⟩ 80 99
      rfl rfl rfl (by decide) (by decide)).1,
   (((pinned_cases_only_signal pinnedBottomState ⟨1600, 2000, 400⟩ ⟨0, 2000, 400⟩ 80 99
      rfl rfl rfl (by decide) (by decide)).2.2.2.1) (by decide)).1.mpr (by decide)⟩

/-- C6: a scroll-range transition matching none of the classified
intersection cases is handled by logging a warning and a full
remeasure/rebuild through the strategy, and no error is raised. -/
theorem unclassified_transition_warns_remeasures (s : VR) (cur prev : ScrollerData)
    (ns ne : Int)
    (hA : s._isAttached = true) (hS : s._skipNextScrollHandle = false)
    (hF : isFalsy s.items = false)
    (hr : getViewRange s cur = (ns, ne))
    (hp : ¬ ((ns ≥ s._first ∧ _lastViewIndex s = ne)
             ∨ (ne = _lastViewIndex s ∧ _lastViewIndex s ≥ ne)))
    (h1 : ¬ (ns > s._first ∧ _lastViewIndex s ≥ ns ∧ ne ≥ _lastViewIndex s))
    (h2 : ¬ (s._first > ns ∧ s._first ≤ ne ∧ _lastViewIndex s ≥ ne))
    (h3 : ¬ (_lastViewIndex s < ns ∨ s._first > ne)) :
    (_handleScroll s cur prev).err = none ∧
    (_handleScroll s cur prev).warned = true ∧
    (_handleScroll s cur prev).state = remeasure s cur ∧
    (_handleScroll s cur prev).signal = 0 := by
  have hred : _handleScroll s cur prev = finishHS (remeasure s cur) ns ne 0 true := by
    simp only [_handleScroll]
    rw [if_neg (show ¬ (s._isAttached = false) from by simp [hA])]
    rw [if_neg (show ¬ (s._skipNextScrollHandle = true) from by simp [hS])]
    rw [if_neg (show ¬ (isFalsy s.items = true) from by simp [hF])]
    rw [hr]
    dsimp only
    rw [if_neg hp, if_neg h1, if_neg h2, if_neg h3]
  rw [hred]
  exact ⟨rfl, rfl, rfl, rfl⟩

/-- C6 witness: old range `[0, 10]`, new range `[0, 5]` is
unclassified; the handler warns and performs the remeasure, throwing
nothing. -/
theorem unclassified_transition_witness :
    getViewRange unclassifiedState ⟨0, 2000, 120⟩ = (0, 5) ∧
    (_handleScroll unclassifiedState ⟨0, 2000, 120⟩ ⟨0, 2000, 120⟩).err = none ∧
    (_handleScroll unclassifiedState ⟨0, 2000, 120⟩ ⟨0, 2000, 120⟩).warned = true ∧
    (_handleScroll unclassifiedState ⟨0, 2000, 120⟩ ⟨0, 2000, 120⟩).state
      = remeasure unclassifiedState ⟨0, 2000, 120⟩ :=
  ⟨by decide,
   (unclassified_transition_warns_remeasures unclassifiedState ⟨0, 2000, 120⟩ ⟨0, 2000, 120⟩ 0 5
      rfl rfl rfl (by decide) (by decide) (by decide) (by decide) (by decide)).1,
   (unclassified_transition_warns_remeasures unclassifiedState ⟨0, 2000, 120⟩ ⟨0, 2000, 120⟩ 0 5
      rfl rfl rfl (by decide) (by decide) (by decide) (by decide) (by decide)).2.1,
   (unclassified_transition_warns_remeasures unclassifiedState ⟨0, 2000, 120⟩ ⟨0, 2000, 120⟩ 0 5
      rfl rfl rfl (by decide) (by decide) (by decide) (by decide) (by decide)).2.2.1⟩

/-- C1 counterexample: with 20 items, `minimumViewsToFillViewport = 15`,
the full list rendered (`oldStart = 0`, `oldEnd = 19`) and `scrollTop =
100`, the new range is `[5, 19]`, so `newStart = 5 > 0 = oldStart`,
`oldEnd = 19 ≥ 5 = newStart` and `newEnd = 19 ≥ 19 = oldEnd` — the
claimed conditions of the scroll-down-overlapping case hold — yet the
handler (classifying the transition as pinned-bottom, which takes
precedence) moves no views and leaves `firstIndex = 0`, not
`newStart = 5`. -/
theorem scrollDown_overlapping_claim_false_at_equal_end :
    getViewRange overlapPinnedState ⟨100, 400, 300⟩ = (5, 19) ∧
    overlapPinnedState._first = 0 ∧
    _lastViewIndex overlapPinnedState = 19 ∧
    (_handleScroll overlapPinnedState ⟨100, 400, 300⟩ ⟨0, 400, 300⟩).state.views
      = overlapPinnedState.views ∧
    (_handleScroll overlapPinnedState ⟨100, 400, 300⟩ ⟨0, 400, 300⟩).state._first = 0 := by
  decide

/-- C1 (amended with `newEnd > oldEnd` strict): in the scroll-down
overlapping case — `newStart > oldStart`, `oldEnd ≥ newStart`,
`newEnd > oldEnd` — the handler moves exactly `newStart − oldStart`
views from the head of the rendered set to the tail, rebinding each
moved view to the next index past the current last rendered index,
sets `firstIndex = newStart`, and recomputes both buffer heights. -/
theorem scrollDown_overlapping_moves (s : VR) (cur prev : ScrollerData)
    (ns ne : Int) (n : Nat)
    (hA : s._isAttached = true) (hS : s._skipNextScrollHandle = false)
    (hF : isFalsy s.items = false)
    (hv : s.views = contigRange s._first n) (hn : 1 ≤ n)
    (hr : getViewRange s cur = (ns, ne))
    (h1 : s._first < ns) (h2 : ns ≤ s._first + (n : Int) - 1)
    (h3 : s._first + (n : Int) - 1 < ne) :
    (_handleScroll s cur prev).state.views
      = s.views.drop (ns - s._first).toNat
        ++ (List.range (ns - s._first).toNat).map
            (fun (i : Nat) => _lastViewIndex s + 1 + (i : Int)) ∧
    (_handleScroll s cur prev).state._first = ns ∧
    (_handleScroll s cur prev).state._topBufferHeight = ns * s.itemHeight ∧
    (_handleScroll s cur prev).state._bottomBufferHeight
      = max 0 (itemCount s - ns - (n : Int)) * s.itemHeight ∧
    (_handleScroll s cur prev).signal = 1 ∧
    (_handleScroll s cur prev).warned = false ∧
    (_handleScroll s cur prev).err = none := by
  have hoe := lastViewIndex_contig s s._first n hv hn
  have hlen : s.views.length = n := by rw [hv]; exact length_contigRange s._first n
  have hkn : (ns - s._first).toNat ≤ s.views.length := by omega
  have hp : ¬ ((ns ≥ s._first ∧ _lastViewIndex s = ne)
               ∨ (ne = _lastViewIndex s ∧ _lastViewIndex s ≥ ne)) := by
    rw [hoe]; omega
  have hc : ns > s._first ∧ _lastViewIndex s ≥ ns ∧ ne ≥ _lastViewIndex s := by
    rw [hoe]; omega
  have hred : _handleScroll s cur prev
      = finishHS (updateBuffers { _moveViews s (ns - s._first).toNat 1 with _first := ns } ns)
          ns ne 1 false := by
    simp only [_handleScroll]
    rw [if_neg (show ¬ (s._isAttached = false) from by simp [hA])]
    rw [if_neg (show ¬ (s._skipNextScrollHandle = true) from by simp [hS])]
    rw [if_neg (show ¬ (isFalsy s.items = true) from by simp [hF])]
    rw [hr]
    dsimp only
    rw [if_neg hp, if_pos hc]
  have hmv : _moveViews s (ns - s._first).toNat 1
      = { s with views := moveViewsDown s.views (_lastViewIndex s) (ns - s._first).toNat } := by
    unfold _moveViews
    rw [if_neg (show ¬ ((1 : Int) = -1) from by decide)]
  have hviews : moveViewsDown s.views (_lastViewIndex s) (ns - s._first).toNat
      = s.views.drop (ns - s._first).toNat
        ++ (List.range (ns - s._first).toNat).map
            (fun (i : Nat) => _lastViewIndex s + 1 + (i : Int)) :=
    moveViewsDown_spec (ns - s._first).toNat s.views (_lastViewIndex s) hkn
  have hmovedlen : (moveViewsDown s.views (_lastViewIndex s) (ns - s._first).toNat).length
      = n := by
    rw [hviews]
    rw [List.length_append, List.length_drop, List.length_map, List.length_range]
    omega
  rw [hred, hmv]
  unfold finishHS updateBuffers
  refine ⟨hviews, rfl, rfl, ?_, rfl, rfl, rfl⟩
  dsimp only
  rw [hmovedlen]
  rfl

/-- C1 witness (the concrete instance of the claim): 1000 items of
height 20, 400-pixel viewport with 20 rendered views `[0, 19]`,
`scrollTop` going from 0 to 100: new range `(5, 24)`, exactly 5 views
move, the rendered set becomes `[5, 24]`, and `firstIndex = 5`. -/
theorem scrollDown_overlapping_moves_witness :
    getViewRange sampleBase ⟨100, 20000, 400⟩ = (5, 24) ∧
    ((_handleScroll sampleBase ⟨100, 20000, 400⟩ ⟨0, 20000, 400⟩).state.views
      = sampleBase.views.drop ((5 : Int) - sampleBase._first).toNat
        ++ (List.range ((5 : Int) - sampleBase._first).toNat).map
            (fun (i : Nat) => _lastViewIndex sampleBase + 1 + (i : Int)) ∧
     (_handleScroll sampleBase ⟨100, 20000, 400⟩ ⟨0, 20000, 400⟩).state._first = 5 ∧
     (_handleScroll sampleBase ⟨100, 20000, 400⟩ ⟨0, 20000, 400⟩).state._topBufferHeight
       = 5 * sampleBase.itemHeight ∧
     (_handleScroll sampleBase ⟨100, 20000, 400⟩ ⟨0, 20000, 400⟩).state._bottomBufferHeight
       = max 0 (itemCount sampleBase - 5 - (20 : Nat)) * sampleBase.itemHeight ∧
     (_handleScroll sampleBase ⟨100, 20000, 400⟩ ⟨0, 20000, 400⟩).signal = 1 ∧
     (_handleScroll sampleBase ⟨100, 20000, 400⟩ ⟨0, 20000, 400⟩).warned = false ∧
     (_handleScroll sampleBase ⟨100, 20000, 400⟩ ⟨0, 20000, 400⟩).err = none) ∧
    (_handleScroll sampleBase ⟨100, 20000, 400⟩ ⟨0, 20000, 400⟩).state.views
      = contigRange 5 20 :=
  ⟨by decide,
   scrollDown_overlapping_moves sampleBase ⟨100, 20000, 400⟩ ⟨0, 20000, 400⟩ 5 24 20
     rfl rfl rfl rfl (by decide) (by decide) (by decide) (by decide) (by decide),
   by decide⟩

/-- C8: when the bound source is a truthy non-iterable, `itemsChanged`
throws `Value is not iterateable for virtual repeat.` and proceeds with
none of collection observation, sizing, or windowing: no observer is
subscribed and the window state (views, item height, elements-in-view,
first index, buffers) is untouched. -/
theorem itemsChanged_rejects_non_iterable (s : VR)
    (hA : s._isAttached = true) (hsc : s.scope ≠ none)
    (hit : s.items = Source.notIterable) :
    (itemsChanged s).2 = some "Value is not iterateable for virtual repeat." ∧
    (itemsChanged s).1.collectionObserver = false ∧
    (itemsChanged s).1.strategy = none ∧
    (itemsChanged s).1.views = s.views ∧
    (itemsChanged s).1.itemHeight = s.itemHeight ∧
    (itemsChanged s).1.elementsInView = s.elementsInView ∧
    (itemsChanged s).1._first = s._first ∧
    (itemsChanged s).1._topBufferHeight = s._topBufferHeight ∧
    (itemsChanged s).1._bottomBufferHeight = s._bottomBufferHeight := by
  unfold itemsChanged _unsubscribeCollection
  rw [if_neg]
  · rw [hit]
    exact ⟨rfl, rfl, rfl, rfl, rfl, rfl, rfl, rfl, rfl⟩
  · dsimp only
    rw [hA]
    simp [hsc]

/-- C8 witness. -/
theorem itemsChanged_rejects_non_iterable_witness :
    nonIterableState.items = Source.notIterable ∧
    (itemsChanged nonIterableState).2
      = some "Value is not iterateable for virtual repeat." ∧
    (itemsChanged nonIterableState).1.collectionObserver = false ∧
    (itemsChanged nonIterableState).1.views = nonIterableState.views :=
  ⟨rfl,
   (itemsChanged_rejects_non_iterable nonIterableState rfl (by decide) rfl).1,
   (itemsChanged_rejects_non_iterable nonIterableState rfl (by decide) rfl).2.1,
   (itemsChanged_rejects_non_iterable nonIterableState rfl (by decide) rfl).2.2.2.1⟩

/-- C9: when `infinite-scroll-next` names a function on the binding
context, `executeGetMore` invokes it positionally with `(topIndex,
isAtBottom, isAtTop)`; in both the string-named and the
bound-expression case, `$scrollContext = { topIndex, isAtBottom,
isAtTop }` is injected into the override context before the invocation,
and a bound expression is evaluated against the scope carrying that
context. -/
theorem getMore_invokes_with_scroll_context (s : VR) (sc : Scope) (topIndex : Int)
    (nt nb : Bool) (hs : s.scope = some sc) :
    (∀ name b, s.attrValue = some (AttrVal.strVal name) →
      lookupFunc s.bindingCtx name = some b →
      (executeGetMore s topIndex nt nb).calls = s.calls ++ [(topIndex, nb, nt)] ∧
      (executeGetMore s topIndex nt nb).scope
        = some { scrollContext := some { topIndex := topIndex, isAtBottom := nb, isAtTop := nt } }) ∧
    (∀ e, s.attrValue = some (AttrVal.exprVal e) →
      (executeGetMore s topIndex nt nb).exprEvals
        = s.exprEvals
          ++ [{ scrollContext := some { topIndex := topIndex, isAtBottom := nb, isAtTop := nt } }] ∧
      (executeGetMore s topIndex nt nb).scope
        = some { scrollContext := some { topIndex := topIndex, isAtBottom := nb, isAtTop := nt } }) := by
  constructor
  · intro name b hattr hlook
    match b, hlook with
    | FuncBehavior.promise, hlook =>
      unfold executeGetMore
      rw [hattr, hs]
      dsimp only [setScrollContext]
      rw [hlook]
      exact ⟨rfl, rfl⟩
    | FuncBehavior.immediate, hlook =>
      unfold executeGetMore
      rw [hattr, hs]
      dsimp only [setScrollContext]
      rw [hlook]
      exact ⟨rfl, rfl⟩
  · intro e hattr
    unfold executeGetMore
    rw [hattr, hs]
    dsimp only [setScrollContext]
    exact ⟨rfl, rfl⟩

/-- C9 witness: the promise-returning `loadMore` function is called
with `(42, true, false)` and the scroll context is injected. -/
theorem getMore_invokes_with_scroll_context_witness :
    sampleBase.attrValue = some (AttrVal.strVal "loadMore") ∧
    (executeGetMore sampleBase 42 false true).calls
      = sampleBase.calls ++ [((42 : Int), true, false)] ∧
    (executeGetMore sampleBase 42 false true).scope
      = some { scrollContext := some { topIndex := 42, isAtBottom := true, isAtTop := false } } :=
  ⟨rfl,
   ((getMore_invokes_with_scroll_context sampleBase ⟨none⟩ 42 false true rfl).1
      "loadMore" FuncBehavior.promise rfl (by decide)).1,
   ((getMore_invokes_with_scroll_context sampleBase ⟨none⟩ 42 false true rfl).1
      "loadMore" FuncBehavior.promise rfl (by decide)).2⟩

/-- C3 (refuting the at-most-once guarantee): from the near-bottom
window `[970, 989]`, two scroll events in separate microtask turns
before the next animation frame — `scrollTop = 19500` then `19600` —
each classify as scroll-down-overlapping, each signal near-bottom, and
each schedule an `executeGetMore` frame callback, because
`_calledGetMore` is only set when a callback runs, not when it is
scheduled.  At the frame both callbacks run: the promise-returning
load-more function is invoked twice while the first returned promise is
still unresolved. -/
theorem rapid_scroll_double_load_invocation :
    (run rapidScrollState
      [Ev.scroll ⟨19500, 20000, 400⟩, Ev.micro,
       Ev.scroll ⟨19600, 20000, 400⟩, Ev.micro, Ev.frame]).calls
      = [((975 : Int), true, false), ((980 : Int), true, false)] ∧
    (run rapidScrollState
      [Ev.scroll ⟨19500, 20000, 400⟩, Ev.micro,
       Ev.scroll ⟨19600, 20000, 400⟩, Ev.micro, Ev.frame]).promisePending = true ∧
    rapidScrollState.calls = [] ∧
    rapidScrollState._calledGetMore = false ∧
    rapidScrollState.promisePending = false := by
  decide

/-- C10 witness: on an empty rendered set both boundary indices are
`-1` and an in-range-shaped query like `view(3)` is `null` rather than
a failure. -/
theorem view_null_iff_out_of_range_witness :
    emptyViewsState.views = [] ∧
    (_firstViewIndex emptyViewsState = -1 ∧ _lastViewIndex emptyViewsState = -1) ∧
    view emptyViewsState 3 = none :=
  ⟨rfl,
   (view_null_iff_out_of_range emptyViewsState 3).2 rfl,
   (view_null_iff_out_of_range emptyViewsState 3).1.mpr (by decide)⟩

/-- C7 witness. -/
theorem mutation_guard_blocks_scroll_witness :
    mutatingState._handlingMutations = true ∧
    _onScroll mutatingState ⟨50, 20000, 400⟩
      = { mutatingState with _handlingMutations := false } ∧
    handleCollectionMutated (fun st => st) sampleBase
      = (fun st => st) { sampleBase with _handlingMutations := true } :=
  ⟨rfl,
   (mutation_guard_blocks_scroll mutatingState ⟨50, 20000, 400⟩ (fun st => st)).1 rfl,
   (mutation_guard_blocks_scroll sampleBase ⟨50, 20000, 400⟩ (fun st => st)).2 rfl⟩

/-- C4 witness: two scroll events in one burst from the idle state
queue exactly one computation, carrying the snapshot pair of the first
capture. -/
theorem scroll_burst_coalesced_witness :
    sampleBase._ticking = false ∧
    (([⟨100, 20000, 400⟩, ⟨200, 20000, 400⟩] : List ScrollerData).foldl
        _onScroll sampleBase).microtasks
      = [MicroTask.scrollTask
          (([⟨100, 20000, 400⟩, ⟨200, 20000, 400⟩] : List ScrollerData).foldl
              _onScroll sampleBase)._currScrollerInfo
          sampleBase._currScrollerInfo] ∧
    (([⟨100, 20000, 400⟩, ⟨200, 20000, 400⟩] : List ScrollerData).foldl
        _onScroll sampleBase)._currScrollerInfo = ⟨100, 20000, 400⟩ :=
  ⟨rfl,
   (scroll_burst_coalesced sampleBase ⟨100, 20000, 400⟩ [⟨200, 20000, 400⟩] rfl rfl rfl).1,
   (scroll_burst_coalesced sampleBase ⟨100, 20000, 400⟩ [⟨200, 20000, 400⟩] rfl rfl rfl).2.1⟩

end UIVirt
